import Mathlib

/-!
Verification of the `ra_db` input-database core of rust-analyzer:
the input store schema, relative-path resolution, crate lookup per
source root, the parse adapter, and the cancellation guard, as a
shallow embedding of `crates/ra_db/src/lib.rs`.

Identifiers are opaque integers in the code (`FileId(u32)` etc.); they
are embedded as `Nat`.  A slash-separated relative path is embedded as
its list of components.
-/

namespace RaDb

/-- A relative path, represented as its list of slash-separated components. -/
abbrev RelativePath := List String

/-- Opaque identifier of one source file. -/
abbrev FileId := Nat

/-- Opaque identifier of one source root. -/
abbrev SourceRootId := Nat

/-- Opaque identifier of one crate. -/
abbrev CrateId := Nat

/-- The external relative-path collaborator's `pop`: truncate the path to
its parent.  A path with at most one component has no parent, so `pop`
fails (the code's comment calls this out: it has to turn `lib.rs` into
the empty path by hand).  `none` models `pop` returning `false` and
leaving the path unchanged. -/
def RelativePathBuf.pop (p : RelativePath) : Option RelativePath :=
  match p with
  | [] => none
  | [_] => none
  | _ => some p.dropLast

/-- One step of the external relative-path collaborator's `normalize`:
a `.` component is dropped, a `..` component removes the last
accumulated component when one is available (a leading `..` that cannot
be resolved is kept), and a normal component is appended. -/
def normalizeStep (stack : List String) (c : String) : List String :=
  if c = "." then stack
  else if c = ".." then
    match stack.getLast? with
    | some last => if last = ".." then stack ++ [".."] else stack.dropLast
    | none => [".."]
  else stack ++ [c]

/-- The external relative-path collaborator's `normalize`: resolve `.`
and `..` components left to right. -/
def RelativePath.normalize (p : RelativePath) : RelativePath :=
  p.foldl normalizeStep []

/-- A source root: a set of files addressed by relative path.  Modelled
from the spec: a `SourceRoot` "groups a set of FileIds under a common
relative-path namespace" (the defining module `input.rs` is not under
`src/`). -/
structure SourceRoot where
  files : List (RelativePath × FileId)
  deriving DecidableEq, Repr

/-- Modelled from the spec: a `SourceRoot` "exposes lookup file by
relative path within this root" (`input.rs` is not under `src/`). -/
def SourceRoot.file_by_relative_path (root : SourceRoot) (path : RelativePath) : Option FileId :=
  (root.files.find? (fun e => e.1 == path)).map (fun e => e.2)

/-- Modelled from the spec: a `SourceRoot` "exposes ... iterate all
files" (`input.rs` is not under `src/`). -/
def SourceRoot.walk (root : SourceRoot) : List FileId :=
  root.files.map (fun e => e.2)

/-- The crate graph: a mapping from `CrateId` to crate metadata, of
which only the designated root `FileId` matters here.  Modelled from
the spec (`input.rs` is not under `src/`). -/
structure CrateGraph where
  crates : List (CrateId × FileId)
  deriving DecidableEq, Repr

/-- Modelled from the spec: the `CrateGraph` answers "is this `FileId`
the designated root file of some crate?", yielding that crate's id
(`input.rs` is not under `src/`). -/
def CrateGraph.crate_id_for_crate_root (graph : CrateGraph) (file : FileId) : Option CrateId :=
  (graph.crates.find? (fun e => e.2 == file)).map (fun e => e.1)

/-- The `SourceDatabase` input facts: text, relative path and owning
source root per file, contents per source root, and the crate graph.
The salsa inputs are embedded as total maps; querying an identifier
that was never registered is a programming error on the caller
(spec §4.1), so no absence channel is modelled for the inputs
themselves. -/
structure SourceDatabase where
  file_text : FileId → String
  file_relative_path : FileId → RelativePath
  file_source_root : FileId → SourceRootId
  source_root : SourceRootId → SourceRoot
  crate_graph : CrateGraph

/-- The path computed inside `resolve_relative_path`: the anchor's
relative path, with its last component popped (worked around to the
empty path when `pop` fails), the request appended, and the result
normalized. -/
def resolved_path (db : SourceDatabase) (anchor : FileId) (relative_path : RelativePath) :
    RelativePath :=
  let path := db.file_relative_path anchor
  let path :=
    match RelativePathBuf.pop path with
    | some parent => parent
    | none => ([] : RelativePath)
  RelativePath.normalize (path ++ relative_path)

/-- `resolve_relative_path` from `crates/ra_db/src/lib.rs`: build the
normalized candidate path, then look it up in the source root owning
the anchor. -/
def resolve_relative_path (db : SourceDatabase) (anchor : FileId)
    (relative_path : RelativePath) : Option FileId :=
  let path := resolved_path db anchor relative_path
  let source_root := db.file_source_root anchor
  let source_root := db.source_root source_root
  source_root.file_by_relative_path path

/-- The spec's own description of resolution (§4.3, quoted by the
claim): drop the last segment of the anchor's relative path (the empty
path when there is no parent segment), append the request, normalize,
and look the result up in the file table of the anchor's source
root. -/
def resolve_relative_path_spec (db : SourceDatabase) (anchor : FileId)
    (relative_path : RelativePath) : Option FileId :=
  let dir := (db.file_relative_path anchor).dropLast
  let path := RelativePath.normalize (dir ++ relative_path)
  (db.source_root (db.file_source_root anchor)).file_by_relative_path path

/-- `source_root_crates` from `crates/ra_db/src/lib.rs`: walk the
source root and keep every file that is the root file of some crate. -/
def source_root_crates (db : SourceDatabase) (id : SourceRootId) : List CrateId :=
  let root := db.source_root id
  let graph := db.crate_graph
  root.walk.filterMap (fun it => graph.crate_id_for_crate_root it)

/-- The profiling span taken by `parse_query`; purely diagnostic, a
functional no-op. -/
def profile (_label : String) : Unit := ()

/-- `parse_query` from `crates/ra_db/src/lib.rs`: fetch the file's text
and hand it to the external parser (`SourceFile::parse`, passed here as
a function since the parser is an external collaborator). -/
def parse_query {Tree : Type} (SourceFile_parse : String → Tree)
    (db : SourceDatabase) (file_id : FileId) : Tree :=
  let _p := profile "parse_query"
  let text := db.file_text file_id
  SourceFile_parse text

/-- `DEFAULT_LRU_CAP` from `crates/ra_db/src/lib.rs`. -/
def DEFAULT_LRU_CAP : Nat := 128

/-- The distinguished cancellation value. Modelled from the spec
(`cancellation.rs` is not under `src/`): a single typed "computation
was canceled" outcome. -/
inductive Canceled where
  | canceled
  deriving DecidableEq, Repr

/-- A panic payload: either the distinguished `Canceled` value (the
downcast in `catch_canceled` succeeds exactly on it) or any other
payload, drawn from an arbitrary type `α`. -/
inductive PanicPayload (α : Type) where
  | canceled (c : Canceled)
  | other (payload : α)
  deriving DecidableEq, Repr

/-- The observable behaviour of running a computation: it either
completes normally with a value or unwinds with a panic payload. -/
inductive Outcome (α T : Type) where
  | ok (value : T)
  | panicked (payload : PanicPayload α)
  deriving DecidableEq, Repr

/-- Modelled from the spec: `Canceled::throw` (`cancellation.rs` is not
under `src/`) "raises a distinguished ... abort signal that unwinds the
current computation's call stack" (§4.2). -/
def Canceled.throw {α T : Type} : Outcome α T :=
  Outcome.panicked (PanicPayload.canceled Canceled.canceled)

/-- `catch_canceled` from `crates/ra_db/src/lib.rs`: run `f` under
`catch_unwind`; a payload that downcasts to `Canceled` becomes
`Err(Canceled)`, any other payload is rethrown by `resume_unwind`.
The argument is the outcome of running `f`. -/
def catch_canceled {α T : Type} (f : Outcome α T) : Outcome α (Except Canceled T) :=
  match f with
  | .ok v => .ok (.ok v)
  | .panicked (.canceled c) => .ok (.error c)
  | .panicked (.other payload) => .panicked (.other payload)

/-- `check_canceled` from `crates/ra_db/src/lib.rs`: throw `Canceled`
when the salsa runtime reports the current revision canceled, return
unit otherwise.  The runtime's report is the boolean argument. -/
def check_canceled {α : Type} (is_current_revision_canceled : Bool) : Outcome α Unit :=
  if is_current_revision_canceled then Canceled.throw else .ok ()

/-- A concrete example database: source root 0 holds `lib.rs` (file 1),
`foo.rs` (file 2) and `bar/baz.rs` (file 3); source root 1 holds
`other.rs` (file 4).  Crate 0 is rooted at file 1, crate 1 at file 4. -/
def exDb : SourceDatabase where
  file_text := fun file_id => if file_id = 1 then "mod foo;" else "fn f() {}"
  file_relative_path := fun file_id =>
    if file_id = 1 then ["lib.rs"]
    else if file_id = 2 then ["foo.rs"]
    else if file_id = 3 then ["bar", "baz.rs"]
    else ["other.rs"]
  file_source_root := fun file_id => if file_id ≤ 3 then 0 else 1
  source_root := fun id =>
    if id = 0 then ⟨[(["lib.rs"], 1), (["foo.rs"], 2), (["bar", "baz.rs"], 3)]⟩
    else ⟨[(["other.rs"], 4)]⟩
  crate_graph := ⟨[(0, 1), (1, 4)]⟩

/-- A second database with the same text for every file as `exDb` but a
different project structure (file 2 moved into a subdirectory). -/
def exDb2 : SourceDatabase where
  file_text := exDb.file_text
  file_relative_path := fun file_id =>
    if file_id = 2 then ["sub", "foo.rs"] else exDb.file_relative_path file_id
  file_source_root := exDb.file_source_root
  source_root := exDb.source_root
  crate_graph := exDb.crate_graph

theorem pop_workaround_eq_dropLast (p : RelativePath) :
    (match RelativePathBuf.pop p with
     | some parent => parent
     | none => ([] : RelativePath)) = p.dropLast := by
  match p with
  | [] => rfl
  | [_] => rfl
  | _ :: _ :: _ => rfl

/-- C1: `resolve_relative_path` coincides with the spec's description:
drop the anchor path's last segment (empty path when there is none),
append the request, normalize, and look up in the anchor's own source
root. -/
theorem resolve_relative_path_eq_spec (db : SourceDatabase) (anchor : FileId)
    (relative_path : RelativePath) :
    resolve_relative_path db anchor relative_path =
      resolve_relative_path_spec db anchor relative_path := by
  simp only [resolve_relative_path, resolve_relative_path_spec, resolved_path]
  rw [pop_workaround_eq_dropLast]

/-- C2: `catch_canceled` turns normal completion into `Ok`, a
`Canceled` panic into `Err(Canceled)`, and rethrows any other panic
payload unchanged. -/
theorem catch_canceled_cases {α T : Type} (v : T) (c : Canceled) (p : PanicPayload α)
    (h : ∀ c', p ≠ PanicPayload.canceled c') :
    catch_canceled (α := α) (Outcome.ok v) = Outcome.ok (Except.ok v) ∧
    catch_canceled (α := α) (T := T) (Outcome.panicked (PanicPayload.canceled c)) =
      Outcome.ok (Except.error c) ∧
    catch_canceled (T := T) (Outcome.panicked p) = Outcome.panicked p := by
  refine ⟨rfl, rfl, ?_⟩
  cases p with
  | canceled c' => exact absurd rfl (h c')
  | other payload => rfl

theorem catch_canceled_cases_witness :
    (∀ c', PanicPayload.other (0 : Nat) ≠ PanicPayload.canceled c') ∧
    (catch_canceled (α := Nat) (Outcome.ok (7 : Nat)) = Outcome.ok (Except.ok 7) ∧
     catch_canceled (α := Nat) (T := Nat)
        (Outcome.panicked (PanicPayload.canceled Canceled.canceled)) =
       Outcome.ok (Except.error Canceled.canceled) ∧
     catch_canceled (T := Nat) (Outcome.panicked (PanicPayload.other (0 : Nat))) =
       Outcome.panicked (PanicPayload.other 0)) :=
  ⟨fun c' => by cases c'; simp,
   catch_canceled_cases 7 Canceled.canceled (PanicPayload.other 0)
     (fun c' => by cases c'; simp)⟩

/-- C4: `check_canceled` throws the distinguished `Canceled` abort
signal exactly when the runtime reports the current revision canceled,
and returns unit (no observable effect) exactly otherwise. -/
theorem check_canceled_iff {α : Type} (b : Bool) :
    (check_canceled (α := α) b = Canceled.throw ↔ b = true) ∧
    (check_canceled (α := α) b = Outcome.ok () ↔ b = false) := by
  cases b <;> simp [check_canceled, Canceled.throw]

/-- C9: the recommended default memo-cache capacity is exactly 128. -/
theorem DEFAULT_LRU_CAP_eq : DEFAULT_LRU_CAP = 128 := rfl

/-- C8: `parse` is the external parser applied to the file's current
text, and it is total: it always produces a tree (the return type has
no failure outcome). -/
theorem parse_query_eq_parser_of_text {Tree : Type} (SourceFile_parse : String → Tree)
    (db : SourceDatabase) (file_id : FileId) :
    parse_query SourceFile_parse db file_id = SourceFile_parse (db.file_text file_id) ∧
    ∃ t, parse_query SourceFile_parse db file_id = t :=
  ⟨rfl, ⟨SourceFile_parse (db.file_text file_id), rfl⟩⟩

/-- C7: `parse` is deterministic in the file's current text: two
databases giving the same `file_text` value for a file get structurally
equal parse results. -/
theorem parse_query_deterministic {Tree : Type} (SourceFile_parse : String → Tree)
    (db1 db2 : SourceDatabase) (file_id : FileId)
    (h : db1.file_text file_id = db2.file_text file_id) :
    parse_query SourceFile_parse db1 file_id = parse_query SourceFile_parse db2 file_id := by
  simp [parse_query, h]

theorem parse_query_deterministic_witness :
    exDb.file_text 2 = exDb2.file_text 2 ∧
    parse_query String.length exDb 2 = parse_query String.length exDb2 2 :=
  ⟨rfl, parse_query_deterministic String.length exDb exDb2 2 rfl⟩

theorem crate_id_for_crate_root_eq_some {graph : CrateGraph} {file : FileId} {c : CrateId}
    (hroots : (graph.crates.map Prod.snd).Nodup) :
    graph.crate_id_for_crate_root file = some c ↔ (c, file) ∈ graph.crates := by
  constructor
  · intro h
    obtain ⟨e, he, hec⟩ : ∃ e, graph.crates.find? (fun e => e.2 == file) = some e ∧ e.1 = c := by
      simpa [CrateGraph.crate_id_for_crate_root, Option.map_eq_some'] using h
    have hmem := List.mem_of_find?_eq_some he
    have hfile : e.2 = file := by simpa using List.find?_some he
    have : e = (c, file) := by
      cases e
      simp_all
    exact this ▸ hmem
  · intro hmem
    have hsome : (graph.crates.find? (fun e => e.2 == file)).isSome :=
      List.find?_isSome.mpr ⟨(c, file), hmem, by simp⟩
    obtain ⟨e, he⟩ := Option.isSome_iff_exists.mp hsome
    have hemem := List.mem_of_find?_eq_some he
    have hfile : e.2 = file := by simpa using List.find?_some he
    have : e = (c, file) :=
      List.inj_on_of_nodup_map hroots hemem hmem (by simpa using hfile)
    simp [CrateGraph.crate_id_for_crate_root, he, this]

/-- C3: when no two crates share a designated root file (the crate
graph is a genuine mapping), `source_root_crates` returns exactly the
crates whose root file is a member of the given source root. -/
theorem source_root_crates_mem (db : SourceDatabase) (id : SourceRootId)
    (hroots : (db.crate_graph.crates.map Prod.snd).Nodup) (c : CrateId) :
    c ∈ source_root_crates db id ↔
      ∃ root_file, (c, root_file) ∈ db.crate_graph.crates ∧
        root_file ∈ (db.source_root id).walk := by
  simp only [source_root_crates, List.mem_filterMap]
  constructor
  · rintro ⟨f, hf, hc⟩
    exact ⟨f, (crate_id_for_crate_root_eq_some hroots).mp hc, hf⟩
  · rintro ⟨f, hcf, hf⟩
    exact ⟨f, hf, (crate_id_for_crate_root_eq_some hroots).mpr hcf⟩

theorem source_root_crates_mem_witness :
    (exDb.crate_graph.crates.map Prod.snd).Nodup ∧
    source_root_crates exDb 0 = [0] ∧
    (0 ∈ source_root_crates exDb 0 ↔
      ∃ root_file, (0, root_file) ∈ exDb.crate_graph.crates ∧
        root_file ∈ (exDb.source_root 0).walk) :=
  ⟨by decide, by decide, source_root_crates_mem exDb 0 (by decide) 0⟩

/-- C5: when the normalized candidate path names no file in the
anchor's own source root, `resolve_relative_path` returns `None` as an
ordinary value — the search is never widened to any other source
root. -/
theorem resolve_relative_path_absent (db : SourceDatabase) (anchor : FileId)
    (relative_path : RelativePath)
    (h : (db.source_root (db.file_source_root anchor)).file_by_relative_path
        (resolved_path db anchor relative_path) = none) :
    resolve_relative_path db anchor relative_path = none := by
  simpa [resolve_relative_path] using h

theorem resolve_relative_path_absent_witness :
    (exDb.source_root (exDb.file_source_root 1)).file_by_relative_path
        (resolved_path exDb 1 ["other.rs"]) = none ∧
    (exDb.source_root 1).file_by_relative_path ["other.rs"] = some 4 ∧
    resolve_relative_path exDb 1 ["other.rs"] = none :=
  ⟨by decide, by decide, resolve_relative_path_absent exDb 1 ["other.rs"] (by decide)⟩

/-- C6: an anchor whose relative path is a single segment resolves the
request against the empty directory path. -/
theorem resolve_relative_path_single_segment (db : SourceDatabase) (anchor : FileId)
    (relative_path : RelativePath) (s : String)
    (h : db.file_relative_path anchor = [s]) :
    resolve_relative_path db anchor relative_path =
      (db.source_root (db.file_source_root anchor)).file_by_relative_path
        (RelativePath.normalize (([] : RelativePath) ++ relative_path)) := by
  simp [resolve_relative_path, resolved_path, h, RelativePathBuf.pop]

theorem resolve_relative_path_single_segment_witness :
    exDb.file_relative_path 1 = ["lib.rs"] ∧
    resolve_relative_path exDb 1 ["foo.rs"] =
      (exDb.source_root (exDb.file_source_root 1)).file_by_relative_path
        (RelativePath.normalize (([] : RelativePath) ++ ["foo.rs"])) ∧
    resolve_relative_path exDb 1 ["foo.rs"] = some 2 :=
  ⟨rfl, resolve_relative_path_single_segment exDb 1 ["foo.rs"] "lib.rs" rfl, by decide⟩

/-- C10: a successful resolution always yields a member of the anchor's
own source root. -/
theorem resolve_relative_path_mem_walk (db : SourceDatabase) (anchor : FileId)
    (relative_path : RelativePath) (f : FileId)
    (h : resolve_relative_path db anchor relative_path = some f) :
    f ∈ (db.source_root (db.file_source_root anchor)).walk := by
  obtain ⟨e, he, hef⟩ :
      ∃ e, (db.source_root (db.file_source_root anchor)).files.find?
          (fun e => e.1 == resolved_path db anchor relative_path) = some e ∧ e.2 = f := by
    simpa [resolve_relative_path, SourceRoot.file_by_relative_path,
      Option.map_eq_some'] using h
  have hmem := List.mem_of_find?_eq_some he
  exact hef ▸ List.mem_map.mpr ⟨e, hmem, rfl⟩

theorem resolve_relative_path_mem_walk_witness :
    resolve_relative_path exDb 1 ["foo.rs"] = some 2 ∧
    2 ∈ (exDb.source_root (exDb.file_source_root 1)).walk :=
  ⟨by decide, resolve_relative_path_mem_walk exDb 1 ["foo.rs"] 2 (by decide)⟩

end RaDb
